import Mathlib

/-!
Shallow embedding of the chessOS backend (garv-2501/chessos).

Embedded source files:
- backend/app/core/config.py: a frozen dataclass `Settings` with one field,
  `stockfish_path`, defaulted from the environment variable STOCKFISH_PATH.
- backend/app/services/stockfish/engine.py: `EngineStatus` and
  `get_engine_status`.
- backend/app/schemas/analysis.py: `AnalysisResponse`.
- backend/app/api/v1/routes/play_bot.py: the play-bot status handler.
- backend/app/main.py: route registration of the health router and the
  play-bot router.

The health route file (backend/app/api/v1/routes/health.py) is imported by
main.py but is not among the sources, and the analysis coordinator / engine
process pool exists only as a design target in the specification; those
parts are modelled from the spec and marked as such in their doc comments.
-/

namespace ChessOS

/-- Process environment: a map from variable names to optional string
values, the shape of Python's `os.getenv`. -/
abbrev Env := String → Option String

/-- Settings from backend/app/core/config.py: a dataclass with the single
field `stockfish_path : str | None`, whose default value is
`os.getenv("STOCKFISH_PATH")`. -/
structure Settings where
  stockfish_path : Option String

/-- Construction of the module-level singleton `settings = Settings()` at
startup: the one field takes its default, read from the environment. -/
def mkSettings (env : Env) : Settings :=
  { stockfish_path := env "STOCKFISH_PATH" }

/-- Python error raised by the `__setattr__` generated for a frozen
dataclass. -/
inductive PyError where
  | FrozenInstanceError

/-- The `__setattr__` method generated for `Settings` by
`@dataclass(frozen=True)`: any attempted attribute assignment
unconditionally raises `FrozenInstanceError`.  The receiver is returned
unmodified only in the sense that no modified value exists. -/
def Settings.setattr (_s : Settings) (_attrName : String)
    (_v : Option String) : Except PyError Settings :=
  Except.error PyError.FrozenInstanceError

/-- Python truthiness `bool(x)` for a value `x : str | None`: `None` is
falsy, the empty string is falsy, every other string is truthy. -/
def pyTruthy : Option String → Bool
  | none => false
  | some s => s != ""

/-- EngineStatus from backend/app/services/stockfish/engine.py. -/
structure EngineStatus where
  ready : Bool
  path : Option String

/-- get_engine_status from backend/app/services/stockfish/engine.py:
`EngineStatus(ready=bool(settings.stockfish_path), path=settings.stockfish_path)`.
The module-level `settings` singleton is passed explicitly. -/
def get_engine_status (settings : Settings) : EngineStatus :=
  { ready := pyTruthy settings.stockfish_path
    path := settings.stockfish_path }

/-- AnalysisResponse from backend/app/schemas/analysis.py: two optional
fields, both defaulting to `None`. -/
structure AnalysisResponse where
  best_move : Option String := none
  evaluation : Option Float := none

/-- The play-bot status handler from backend/app/api/v1/routes/play_bot.py:
it returns the JSON object with the single pair status/ready.  The handler
reads no state; it is given the process-wide settings to express that its
result does not depend on them. -/
def play_bot_status (_settings : Settings) : List (String × String) :=
  [("status", "ready")]

/-- A registered HTTP route: the mount point passed to `include_router`,
the path local to the router, and the tag. -/
structure Route where
  mount : String
  local_path : String
  tag : String

/-- Modelled from the spec: the health router of
backend/app/api/v1/routes/health.py, which main.py imports but whose file
is missing from the sources.  The spec describes it as a single placeholder
health-check endpoint. -/
def health_router_paths : List String :=
  ["/health"]

/-- The play-bot router of backend/app/api/v1/routes/play_bot.py: one GET
route at the local path /status. -/
def play_bot_router_paths : List String :=
  ["/status"]

/-- FastAPI `app.include_router`: registers every route of a router under
the given mount point and tag. -/
def include_router (mount : String) (tag : String)
    (paths : List String) : List Route :=
  paths.map (fun p => { mount := mount, local_path := p, tag := tag })

/-- The routes registered on the FastAPI app in backend/app/main.py: the
health router under /api/v1 and the play-bot router under
/api/v1/play-bot. -/
def app_routes : List Route :=
  include_router "/api/v1" "health" health_router_paths ++
  include_router "/api/v1/play-bot" "play-bot" play_bot_router_paths

/-- Completion status of an analysis, from the spec's AnalysisResult data
model: Ok, Timeout, or EngineError. -/
inductive CompletionStatus where
  | Ok
  | Timeout
  | EngineError

/-- Modelled from the spec: AnalysisResult, the result type of the design
target's analysis coordinator, which has no implementation in the sources.
Fields: optional best move, optional signed floating evaluation, and a
completion status. -/
structure AnalysisResult where
  best_move : Option String := none
  evaluation : Option Float := none
  status : CompletionStatus

/-- Modelled from the spec: an AnalysisRequest, immutable once created:
board position in serialized notation and a search budget. -/
structure AnalysisRequest where
  position : String
  budget : Nat

/-- Errors of the spec's error taxonomy that a submitted request can fail
with. -/
inductive EngineFailure where
  | EngineUnavailable
  | PoolExhausted
  | ProtocolError

/-- Modelled from the spec: submitting an AnalysisRequest to the analysis
coordinator, which has no implementation in the sources.  When the engine
binary path setting is absent the request fails with EngineUnavailable and
no subprocess spawn is attempted; otherwise the pool runs the engine on the
request.  The engine call is a parameter; the second component counts the
subprocess spawns attempted. -/
def submit_request (s : Settings) (engine : AnalysisRequest → AnalysisResult)
    (req : AnalysisRequest) : Except EngineFailure AnalysisResult × Nat :=
  match s.stockfish_path with
  | none => (Except.error EngineFailure.EngineUnavailable, 0)
  | some _ => (Except.ok (engine req), 1)

/-- C1: for every settings value, `get_engine_status` returns an
EngineStatus whose `ready` field is true if and only if
`settings.stockfish_path` is a non-empty string (not None and not the empty
string), and whose `path` field equals `settings.stockfish_path`. -/
theorem engine_status_ready_iff (s : Settings) :
    ((get_engine_status s).ready = true ↔
      ∃ str, s.stockfish_path = some str ∧ str ≠ "") ∧
    (get_engine_status s).path = s.stockfish_path := by
  refine ⟨?_, rfl⟩
  cases h : s.stockfish_path with
  | none => simp [get_engine_status, pyTruthy, h]
  | some str => simp [get_engine_status, pyTruthy, h, bne_iff_ne]

/-- Witness for C1 at the concrete settings value with path "/usr/bin/sf". -/
theorem engine_status_ready_iff_witness :
    ((get_engine_status ⟨some "/usr/bin/sf"⟩).ready = true ↔
      ∃ str, (⟨some "/usr/bin/sf"⟩ : Settings).stockfish_path = some str ∧
        str ≠ "") ∧
    (get_engine_status ⟨some "/usr/bin/sf"⟩).path =
      (⟨some "/usr/bin/sf"⟩ : Settings).stockfish_path :=
  engine_status_ready_iff ⟨some "/usr/bin/sf"⟩

/-- C2: whenever the engine binary path setting is absent, the reported
status has `ready = false`, any submitted analysis request immediately
fails with EngineUnavailable, and no subprocess spawn is attempted (the
spawn count of the submission is zero). -/
theorem unconfigured_path_engine_unavailable (env : Env)
    (engine : AnalysisRequest → AnalysisResult) (req : AnalysisRequest)
    (h : env "STOCKFISH_PATH" = none) :
    (get_engine_status (mkSettings env)).ready = false ∧
    (submit_request (mkSettings env) engine req).1 =
      Except.error EngineFailure.EngineUnavailable ∧
    (submit_request (mkSettings env) engine req).2 = 0 := by
  refine ⟨?_, ?_, ?_⟩ <;>
    simp [get_engine_status, pyTruthy, mkSettings, submit_request, h]

/-- Witness for C2 at the empty environment, a trivial engine and a
concrete request. -/
theorem unconfigured_path_engine_unavailable_witness :
    ((fun _ => none : Env) "STOCKFISH_PATH" = none) ∧
    ((get_engine_status (mkSettings (fun _ => none))).ready = false ∧
     (submit_request (mkSettings (fun _ => none))
        (fun _ => { status := CompletionStatus.EngineError })
        ⟨"startpos", 1⟩).1 =
       Except.error EngineFailure.EngineUnavailable ∧
     (submit_request (mkSettings (fun _ => none))
        (fun _ => { status := CompletionStatus.EngineError })
        ⟨"startpos", 1⟩).2 = 0) :=
  ⟨rfl, unconfigured_path_engine_unavailable (fun _ => none)
    (fun _ => { status := CompletionStatus.EngineError }) ⟨"startpos", 1⟩ rfl⟩

/-- C3: the application registers exactly two placeholder endpoints: the
health check mounted at /api/v1 and the bot-status route mounted at
/api/v1/play-bot. -/
theorem app_registers_two_routes :
    app_routes.length = 2 ∧
    app_routes = [{ mount := "/api/v1", local_path := "/health",
                    tag := "health" },
                  { mount := "/api/v1/play-bot", local_path := "/status",
                    tag := "play-bot" }] :=
  ⟨rfl, rfl⟩

/-- C4: the configuration object has the single setting `stockfish_path`,
read from the environment variable STOCKFISH_PATH at construction; when
the variable is unset the value is None.  The second conjunct states that a
Settings value carries nothing besides this one field. -/
theorem settings_single_field_from_env (env : Env) :
    (mkSettings env).stockfish_path = env "STOCKFISH_PATH" ∧
    (∀ s : Settings, s = Settings.mk s.stockfish_path) ∧
    (mkSettings (fun _ => none)).stockfish_path = none :=
  ⟨rfl, fun _ => rfl, rfl⟩

/-- Witness for C4 at a one-variable environment. -/
theorem settings_single_field_from_env_witness :
    (mkSettings (fun v => if v = "STOCKFISH_PATH" then some "/sf" else none)
      ).stockfish_path =
      (fun v => if v = "STOCKFISH_PATH" then some "/sf" else none : Env)
        "STOCKFISH_PATH" ∧
    (∀ s : Settings, s = Settings.mk s.stockfish_path) ∧
    (mkSettings (fun _ => none)).stockfish_path = none :=
  settings_single_field_from_env
    (fun v => if v = "STOCKFISH_PATH" then some "/sf" else none)

/-- C5: AnalysisResponse has an optional best_move and an optional
evaluation, both absent by default: constructing it with no arguments
yields best_move = None and evaluation = None. -/
theorem analysis_response_defaults_none :
    ({} : AnalysisResponse).best_move = none ∧
    ({} : AnalysisResponse).evaluation = none :=
  ⟨rfl, rfl⟩

/-- C6: the (spec-modelled) analysis result shape carries, in addition to
best_move and evaluation, an explicit completion-status field taking one of
the enumerated values Ok, Timeout, EngineError. -/
theorem analysis_result_carries_status (b : Option String)
    (e : Option Float) (st : CompletionStatus) :
    (AnalysisResult.mk b e st).best_move = b ∧
    (AnalysisResult.mk b e st).evaluation = e ∧
    (AnalysisResult.mk b e st).status = st ∧
    (st = CompletionStatus.Ok ∨ st = CompletionStatus.Timeout ∨
      st = CompletionStatus.EngineError) := by
  refine ⟨rfl, rfl, rfl, ?_⟩
  cases st with
  | Ok => exact Or.inl rfl
  | Timeout => exact Or.inr (Or.inl rfl)
  | EngineError => exact Or.inr (Or.inr rfl)

/-- Witness for C6 at a concrete result value. -/
theorem analysis_result_carries_status_witness :
    (AnalysisResult.mk (some "e2e4") none CompletionStatus.Ok).best_move =
      some "e2e4" ∧
    (AnalysisResult.mk (some "e2e4") none CompletionStatus.Ok).evaluation =
      none ∧
    (AnalysisResult.mk (some "e2e4") none CompletionStatus.Ok).status =
      CompletionStatus.Ok ∧
    (CompletionStatus.Ok = CompletionStatus.Ok ∨
      CompletionStatus.Ok = CompletionStatus.Timeout ∨
      CompletionStatus.Ok = CompletionStatus.EngineError) :=
  analysis_result_carries_status (some "e2e4") none CompletionStatus.Ok

/-- C7: every AnalysisRequest submitted to the (spec-modelled) coordinator
resolves to exactly one outcome, which is an AnalysisResult or an explicit
error; no request is silently dropped. -/
theorem request_never_dropped (s : Settings)
    (engine : AnalysisRequest → AnalysisResult) (req : AnalysisRequest) :
    ((∃ r : AnalysisResult,
        (submit_request s engine req).1 = Except.ok r) ∨
     (∃ e : EngineFailure,
        (submit_request s engine req).1 = Except.error e)) ∧
    (∃! out : Except EngineFailure AnalysisResult,
        (submit_request s engine req).1 = out) := by
  constructor
  · cases h : (submit_request s engine req).1 with
    | ok r => exact Or.inl ⟨r, rfl⟩
    | error e => exact Or.inr ⟨e, rfl⟩
  · exact ⟨(submit_request s engine req).1, rfl, fun _ h => h.symm⟩

/-- Witness for C7 at a concrete settings value, engine and request. -/
theorem request_never_dropped_witness :
    ((∃ r : AnalysisResult,
        (submit_request ⟨some "/sf"⟩
          (fun _ => { status := CompletionStatus.Ok })
          ⟨"startpos", 5⟩).1 = Except.ok r) ∨
     (∃ e : EngineFailure,
        (submit_request ⟨some "/sf"⟩
          (fun _ => { status := CompletionStatus.Ok })
          ⟨"startpos", 5⟩).1 = Except.error e)) ∧
    (∃! out : Except EngineFailure AnalysisResult,
        (submit_request ⟨some "/sf"⟩
          (fun _ => { status := CompletionStatus.Ok })
          ⟨"startpos", 5⟩).1 = out) :=
  request_never_dropped ⟨some "/sf"⟩
    (fun _ => { status := CompletionStatus.Ok }) ⟨"startpos", 5⟩

/-- C8: the bot-status handler returns exactly the pair list for the JSON
object with status "ready", for every configuration state; in particular it
reports "ready" when the engine path is unset. -/
theorem play_bot_status_always_ready (s : Settings) :
    play_bot_status s = [("status", "ready")] ∧
    play_bot_status (mkSettings (fun _ => none)) = [("status", "ready")] :=
  ⟨rfl, rfl⟩

/-- Witness for C8 at settings built from the empty environment. -/
theorem play_bot_status_always_ready_witness :
    play_bot_status (mkSettings (fun _ => none)) = [("status", "ready")] ∧
    play_bot_status (mkSettings (fun _ => none)) = [("status", "ready")] :=
  play_bot_status_always_ready (mkSettings (fun _ => none))

/-- C9: Settings is frozen: every attribute assignment raises
FrozenInstanceError, and what get_engine_status reports as the path is
exactly the value `stockfish_path` received at construction from the
environment. -/
theorem settings_frozen (env : Env) (attrName : String)
    (v : Option String) :
    Settings.setattr (mkSettings env) attrName v =
      Except.error PyError.FrozenInstanceError ∧
    (get_engine_status (mkSettings env)).path = env "STOCKFISH_PATH" :=
  ⟨rfl, rfl⟩

/-- Witness for C9 at the empty environment and a concrete assignment. -/
theorem settings_frozen_witness :
    Settings.setattr (mkSettings (fun _ => none)) "stockfish_path"
        (some "/sf") = Except.error PyError.FrozenInstanceError ∧
    (get_engine_status (mkSettings (fun _ => none))).path =
      (fun _ => none : Env) "STOCKFISH_PATH" :=
  settings_frozen (fun _ => none) "stockfish_path" (some "/sf")

/-- C10: get_engine_status is deterministic: any two settings values that
agree on stockfish_path yield EngineStatus results equal in both the ready
and the path fields. -/
theorem get_engine_status_deterministic (s₁ s₂ : Settings)
    (h : s₁.stockfish_path = s₂.stockfish_path) :
    (get_engine_status s₁).ready = (get_engine_status s₂).ready ∧
    (get_engine_status s₁).path = (get_engine_status s₂).path := by
  constructor <;> simp [get_engine_status, h]

/-- Witness for C10 at two identical concrete settings values. -/
theorem get_engine_status_deterministic_witness :
    ((⟨some "/sf"⟩ : Settings).stockfish_path =
      (⟨some "/sf"⟩ : Settings).stockfish_path) ∧
    ((get_engine_status ⟨some "/sf"⟩).ready =
      (get_engine_status ⟨some "/sf"⟩).ready ∧
     (get_engine_status ⟨some "/sf"⟩).path =
      (get_engine_status ⟨some "/sf"⟩).path) :=
  ⟨rfl, get_engine_status_deterministic ⟨some "/sf"⟩ ⟨some "/sf"⟩ rfl⟩

end ChessOS
